import Mathlib

/-!
# GPflow multi-output conditionals: a shallow embedding

This file embeds `gpflow/conditionals/mo_conditionals.py` in Lean 4.

Tensors are modelled as a shape (a list of dimension sizes) together with a
total multi-index valuation into the rationals.  TensorFlow's `reshape` keeps
the row-major flat ordering of the entries, so `reshape` is modelled by going
through flat (row-major) indices.

The file is organised as:
* a small tensor calculus mirroring the TensorFlow operations used by the
  source (`reshape`, `transpose`, slicing, stacking, axis insertion/removal);
* the data model of the kernels and features the source dispatches on;
* the helpers imported by the source from `gpflow.conditionals.util` and
  `gpflow.util`, which are not part of the extracted source file and are
  therefore modelled from the specification, or kept as explicitly
  contracted collaborator parameters (`base_conditional`,
  `fully_correlated_conditional`, `independent_interdomain_conditional`);
* the five dispatch regimes of `mo_conditionals.py`, each returning its
  result together with a trace of the collaborator calls it performed;
* theorems about the claims.
-/

namespace GPflow

/-- Row-major flat index of a multi-index `idx` within `shape`. -/
def flatIndex : List Nat → List Nat → Nat
  | _, [] => 0
  | [], _ :: _ => 0
  | _ :: ds, i :: is => i * ds.prod + flatIndex ds is

/-- Inverse of `flatIndex`: recover the multi-index of a row-major flat
position within `shape`. -/
def unflatten : List Nat → Nat → List Nat
  | [], _ => []
  | _ :: ds, i => (i / ds.prod) :: unflatten ds (i % ds.prod)

/-- A tensor: a shape and a total valuation of multi-indices. -/
structure Tensor where
  shape : List Nat
  data : List Nat → ℚ

/-- The all-zero scalar tensor, used as a default value. -/
def Tensor.zero : Tensor := ⟨[], fun _ => 0⟩

instance : Inhabited Tensor := ⟨Tensor.zero⟩

/-- Entry lookup; identical to `data`, provided for readability. -/
def Tensor.get (t : Tensor) (idx : List Nat) : ℚ := t.data idx

/-- `tf.reshape`: the row-major flat ordering of entries is preserved. -/
def Tensor.reshape (t : Tensor) (s : List Nat) : Tensor :=
  ⟨s, fun idx => t.data (unflatten t.shape (flatIndex s idx))⟩

/-- `tf.transpose` with no permutation argument: reverse all axes. -/
def Tensor.transpose (t : Tensor) : Tensor :=
  ⟨t.shape.reverse, fun idx => t.data idx.reverse⟩

/-- Indexing the first axis at `i` (as in `x[i, ...]`). -/
def Tensor.sliceFirst (t : Tensor) (i : Nat) : Tensor :=
  ⟨t.shape.tail, fun idx => t.data (i :: idx)⟩

/-- Indexing the last axis at `i` (as in `x[..., i]`). -/
def Tensor.sliceLast (t : Tensor) (i : Nat) : Tensor :=
  ⟨t.shape.dropLast, fun idx => t.data (idx ++ [i])⟩

/-- Appending a trailing singleton axis (as in `x[..., None]` after the
existing axes, e.g. `x[:, :, None]` on a rank-2 tensor). -/
def Tensor.expandLast (t : Tensor) : Tensor :=
  ⟨t.shape ++ [1], fun idx => t.data idx.dropLast⟩

/-- Inserting a singleton axis in position 1 (as in `x[:, None, :, :]`). -/
def Tensor.expandAt1 (t : Tensor) : Tensor :=
  ⟨match t.shape with
    | [] => [1]
    | d :: rest => d :: 1 :: rest,
   fun idx =>
    match idx with
    | i :: _ :: rest => t.data (i :: rest)
    | _ => 0⟩

/-- Indexing axis `k` at position `i`, removing that axis
(as in `x[..., i, :, :]`). -/
def Tensor.removeAxis (t : Tensor) (k i : Nat) : Tensor :=
  ⟨t.shape.eraseIdx k, fun idx => t.data (idx.insertIdx k i)⟩

/-- `tf.stack(ts, axis=0)`. -/
def Tensor.stack (ts : List Tensor) : Tensor :=
  ⟨ts.length :: (ts.getD 0 Tensor.zero).shape,
   fun idx =>
    match idx with
    | [] => 0
    | i :: rest => (ts.getD i Tensor.zero).data rest⟩

/-- Finite sum `f 0 + f 1 + ... + f (n-1)`. -/
def sumTo : Nat → (Nat → ℚ) → ℚ
  | 0, _ => 0
  | n + 1, f => sumTo n f + f n

/-! ## Data model: kernels -/

/-- A single-output kernel, seen through the evaluation interface the source
uses: `k.K(Xnew)` (full covariance, `[N, N]`) and `k.K_diag(Xnew)`
(diagonal, `[N]`).  Both are external collaborators, so they are abstract
tensor-producing functions. -/
structure SingleKernel where
  K : Tensor → Tensor
  K_diag : Tensor → Tensor

/-- A trivial single-output kernel, used as a default value. -/
def SingleKernel.zero : SingleKernel :=
  ⟨fun _ => Tensor.zero, fun _ => Tensor.zero⟩

instance : Inhabited SingleKernel := ⟨SingleKernel.zero⟩

/-- The multi-output kernel variants the source dispatches on.
`SeparateIndependentMok` and `SeparateMixedMok` subclass `Combination` in the
source (they expose a `kernels` list); `SharedIndependentMok` holds a single
`kernel`.  `SeparateMixedMok` additionally carries the mixing matrix `W`
of shape `[P, L]`. -/
inductive MoKernel where
  | sharedIndependentMok (kernel : SingleKernel)
  | separateIndependentMok (kernels : List SingleKernel)
  | separateMixedMok (kernels : List SingleKernel) (W : Tensor)

/-- `isinstance(kernel, Combination)`. -/
def MoKernel.isCombination : MoKernel → Bool
  | .sharedIndependentMok _ => false
  | .separateIndependentMok _ => true
  | .separateMixedMok _ _ => true

/-- The `kernels` attribute of a `Combination` kernel. -/
def MoKernel.kernels : MoKernel → List SingleKernel
  | .sharedIndependentMok k => [k]
  | .separateIndependentMok ks => ks
  | .separateMixedMok ks _ => ks

/-- The `kernel` attribute of a `SharedIndependentMok`. -/
def MoKernel.kernel : MoKernel → SingleKernel
  | .sharedIndependentMok k => k
  | .separateIndependentMok ks => ks.getD 0 SingleKernel.zero
  | .separateMixedMok ks _ => ks.getD 0 SingleKernel.zero

/-- The mixing matrix `W` of a `SeparateMixedMok`. -/
def MoKernel.W : MoKernel → Tensor
  | .separateMixedMok _ W => W
  | _ => Tensor.zero

/-! ## Collaborator-call traces

Each regime implementation records which external/utility computations it
invoked, with the tensor shapes it handed them.  Cholesky factorization
happens inside the conditional helpers (`base_conditional`,
`fully_correlated_conditional`, `independent_interdomain_conditional`),
never in the regime bodies themselves. -/

/-- One collaborator call performed by a regime implementation. -/
inductive CallEvent where
  | kuu (jitter : ℚ)
  | kuf
  | baseConditional (KmnShape KmmShape KnnShape : List Nat)
      (full_cov : Bool) (qSqrtNone : Bool)
  | fullyCorrelated (KmnShape KmmShape : List Nat)
      (full_cov full_output_cov : Bool)
  | independentInterdomain (KmnShape KmmShape : List Nat)
      (full_cov full_output_cov : Bool)
  | mixLatent (full_cov full_output_cov : Bool)
  | innerConditional (full_cov full_output_cov : Bool)
deriving DecidableEq, Repr

/-- Whether a recorded call performs Cholesky factorizations internally. -/
def CallEvent.choleskyBearing : CallEvent → Bool
  | .baseConditional _ _ _ _ _ => true
  | .fullyCorrelated _ _ _ _ => true
  | .independentInterdomain _ _ _ _ => true
  | _ => false

/-- Whether a recorded call is the interdomain conditional helper,
`independent_interdomain_conditional`. -/
def CallEvent.isIndependentInterdomain : CallEvent → Bool
  | .independentInterdomain _ _ _ _ => true
  | _ => false

/-- Whether a recorded call is the helper `fully_correlated_conditional`. -/
def CallEvent.isFullyCorrelated : CallEvent → Bool
  | .fullyCorrelated _ _ _ _ => true
  | _ => false

/-- Whether a recorded call is a `base_conditional` invocation. -/
def CallEvent.isBaseConditional : CallEvent → Bool
  | .baseConditional _ _ _ _ _ => true
  | _ => false

/-! ## Utility collaborators

`base_conditional`, `fully_correlated_conditional` and
`independent_interdomain_conditional` live in `gpflow/conditionals/util.py`,
which is not part of the extracted source; the specification treats
`base_conditional` as an assumed-correct external leaf (§4.2) and describes
only the interface contracts of the other two.  They are therefore taken as
function parameters of the regime implementations, with their documented
shape contracts stated as explicit predicates below. -/

/-- The type of `base_conditional(Kmn, Kmm, Knn, f, full_cov, q_sqrt, white)`. -/
abbrev BaseCondFn :=
  Tensor → Tensor → Tensor → Tensor → Bool → Option Tensor → Bool →
    Tensor × Tensor

/-- The type of `fully_correlated_conditional` and of
`independent_interdomain_conditional`:
`(Kmn, Kmm, Knn, f, full_cov, full_output_cov, q_sqrt, white)`. -/
abbrev JointCondFn :=
  Tensor → Tensor → Tensor → Tensor → Bool → Bool → Option Tensor → Bool →
    Tensor × Tensor

/-- The four canonical variance layouts of the contract (§3):
`[N, P]`, `[P, N, N]`, `[N, P, P]`, `[N, P, N, P]`. -/
def varianceShape (N P : Nat) : Bool → Bool → List Nat
  | false, false => [N, P]
  | true, false => [P, N, N]
  | false, true => [N, P, P]
  | true, true => [N, P, N, P]

/-- Modelled from the spec: the shape contract of `base_conditional` (§4.2),
which is missing from the extracted source.  Given `Kmn : [M, N]` and
`f : [M, P]` it returns a mean `[N, P]` and a variance `[N, P]`
(`full_cov = false`) or `[P, N, N]` (`full_cov = true`). -/
def BaseCondShapeContract (bc : BaseCondFn) : Prop :=
  ∀ (Kmn Kmm Knn f : Tensor) (fc : Bool) (q : Option Tensor) (w : Bool)
    (M N P : Nat), Kmn.shape = [M, N] → f.shape = [M, P] →
    (bc Kmn Kmm Knn f fc q w).1.shape = [N, P] ∧
    (bc Kmn Kmm Knn f fc q w).2.shape = (if fc then [P, N, N] else [N, P])

/-- Modelled from the spec: the shape contract of
`fully_correlated_conditional` / `independent_interdomain_conditional`
(§4.5b), which are missing from the extracted source.  Given the number of
new points `N` and of outputs `P` read off the `Kmn` argument, the helper
returns a mean `[N, P]` and a variance in the canonical layout requested by
the two flags. -/
def JointCondShapeContract (h : JointCondFn) (N P axisN axisP : Nat) : Prop :=
  ∀ (Kmn Kmm Knn f : Tensor) (fc foc : Bool) (q : Option Tensor) (w : Bool),
    Kmn.shape.getD axisN 0 = N → Kmn.shape.getD axisP 0 = P →
    (h Kmn Kmm Knn f fc foc q w).1.shape = [N, P] ∧
    (h Kmn Kmm Knn f fc foc q w).2.shape = varianceShape N P fc foc

/-- Modelled from the spec: `default_jitter` (§6), a process-wide small
positive configuration constant, e.g. `1e-6`. -/
def default_jitter : ℚ := 1 / 1000000

/-- Modelled from the spec: `expand_independent_outputs` (§4.8), which is
missing from the extracted source.  Given an independent-output variance
(`[N, P]` when `full_cov = false`, `[P, N, N]` when `full_cov = true`) and
the two flags, it produces the requested layout; when `full_output_cov` is
requested it is a diagonal embedding across the output axis, with exactly
zero off-diagonal output-covariance entries; otherwise it passes the
variance through unchanged. -/
def expand_independent_outputs (fvar : Tensor) (full_cov full_output_cov : Bool) :
    Tensor :=
  match full_cov, full_output_cov with
  | true, true =>
    -- [P, N, N] -> [N, P, N, P]
    let P := fvar.shape.getD 0 0
    let N := fvar.shape.getD 1 0
    ⟨[N, P, N, P], fun idx =>
      match idx with
      | [n, p, m, q] => if p = q then fvar.data [p, n, m] else 0
      | _ => 0⟩
  | false, true =>
    -- [N, P] -> [N, P, P]
    let N := fvar.shape.getD 0 0
    let P := fvar.shape.getD 1 0
    ⟨[N, P, P], fun idx =>
      match idx with
      | [n, p, q] => if p = q then fvar.data [n, p] else 0
      | _ => 0⟩
  | _, false => fvar

/-- Modelled from the spec: `rollaxis_left` (from `gpflow.util`, missing from
the extracted source) rotates the leading `num` axes to the back; §4.4 uses
it with `num = 1` to "move the batch axis to become the trailing output
axis". -/
def rollaxis_left (t : Tensor) (num : Nat) : Tensor :=
  ⟨t.shape.drop num ++ t.shape.take num,
   fun idx => idx.drop (idx.length - num) ++ idx.take (idx.length - num) |> t.data⟩

/-- Modelled from the spec: `mix_latent_gp` (§4.7), which is missing from the
extracted source.  Given the mixing matrix `W : [P, L]`, a per-latent mean
`gmu : [N, L]` and per-latent variance `gvar` (`[L, N, N]` or `[N, L]`),
compute the output mean `gmu · Wᵀ : [N, P]` and the output variance
`W (diag(gvar) or full gvar) Wᵀ` in the canonical layout requested by the
two flags. -/
def mix_latent_gp (W gmu gvar : Tensor) (full_cov full_output_cov : Bool) :
    Tensor × Tensor :=
  let N := gmu.shape.getD 0 0
  let L := gmu.shape.getD 1 0
  let P := W.shape.getD 0 0
  let fmu : Tensor :=
    ⟨[N, P], fun idx =>
      match idx with
      | [n, p] => sumTo L (fun l => gmu.data [n, l] * W.data [p, l])
      | _ => 0⟩
  let fvar : Tensor :=
    match full_cov, full_output_cov with
    | true, true =>
      ⟨[N, P, N, P], fun idx =>
        match idx with
        | [n, p, m, q] =>
          sumTo L (fun l => W.data [p, l] * gvar.data [l, n, m] * W.data [q, l])
        | _ => 0⟩
    | true, false =>
      ⟨[P, N, N], fun idx =>
        match idx with
        | [p, n, m] =>
          sumTo L (fun l => W.data [p, l] * W.data [p, l] * gvar.data [l, n, m])
        | _ => 0⟩
    | false, true =>
      ⟨[N, P, P], fun idx =>
        match idx with
        | [n, p, q] =>
          sumTo L (fun l => W.data [p, l] * gvar.data [n, l] * W.data [q, l])
        | _ => 0⟩
    | false, false =>
      ⟨[N, P], fun idx =>
        match idx with
        | [n, p] =>
          sumTo L (fun l => W.data [p, l] * W.data [p, l] * gvar.data [n, l])
        | _ => 0⟩
  (fmu, fvar)

/-- A regime's outcome: predictive mean and variance, plus the trace of
collaborator calls performed.  The `Except` layer models Python exceptions. -/
abbrev CondResult := Except String ((Tensor × Tensor) × List CallEvent)

/-- Extract the payload of a successful conditional, defaulting on error. -/
def okD (e : CondResult) : (Tensor × Tensor) × List CallEvent :=
  match e with
  | .ok x => x
  | .error _ => ((Tensor.zero, Tensor.zero), [])

/-! ## The five regime implementations of `mo_conditionals.py`

Each regime takes its external collaborators as parameters:
`Kuu`/`Kuf` (the `covariances` module, dispatched on the feature/kernel pair
outside the extracted source), `kcall` (the multi-output kernel's joint
evaluation `kernel(Xnew, full, full_output_cov)`), and the conditional
helpers from `gpflow.conditionals.util`. -/

/-- Regime §4.3 (source lines 24-70): `SharedIndependentMof` ×
`SharedIndependentMok`. -/
def conditional_shared_shared (bc : BaseCondFn)
    (Kuu : ℚ → Tensor) (Kuf : Tensor → Tensor)
    (kcall : Tensor → Bool → Bool → Tensor)
    (Xnew f : Tensor) (full_cov full_output_cov : Bool)
    (q_sqrt : Option Tensor) (white : Bool) : CondResult :=
  let Kmm := Kuu default_jitter  -- [M, M]
  let Kmn := Kuf Xnew  -- [M, N]
  let Knn0 := kcall Xnew full_cov false
  let Knn := if full_cov then Knn0.sliceFirst 0 else Knn0.sliceLast 0
  let r := bc Kmn Kmm Knn f full_cov q_sqrt white
  .ok ((r.1, expand_independent_outputs r.2 full_cov full_output_cov),
    [.kuu default_jitter, .kuf,
     .baseConditional Kmn.shape Kmm.shape Knn.shape full_cov q_sqrt.isNone])

/-- The per-output `Knn` tensor of regime §4.4 (source lines 104-108):
unwrap a `Combination` kernel into its constituent list, otherwise repeat
the single underlying kernel once per feature set; stack each constituent's
full covariance (`full_cov`) or diagonal. -/
def knnStack (kernel : MoKernel) (nFeatures : Nat) (Xnew : Tensor)
    (full_cov : Bool) : Tensor :=
  let kernels :=
    if kernel.isCombination then kernel.kernels
    else List.replicate nFeatures kernel.kernel
  Tensor.stack (kernels.map (fun k => if full_cov then k.K Xnew else k.K_diag Xnew))

/-- Regime §4.4 (source lines 73-129): `{Separate,Shared}IndependentMof` ×
`{Separate,Shared}IndependentMok`, batched over the outputs with `map_fn`.
The source unconditionally evaluates `q_sqrt.shape.ndims`, so a `None`
`q_sqrt` raises an `AttributeError`. -/
def conditional_separate_independent (bc : BaseCondFn)
    (Kuu : ℚ → Tensor) (Kuf : Tensor → Tensor)
    (kernel : MoKernel) (nFeatures : Nat)
    (Xnew f : Tensor) (full_cov full_output_cov : Bool)
    (q_sqrt : Option Tensor) (white : Bool) : CondResult :=
  let Kmms := Kuu default_jitter  -- [P, M, M]
  let Kmns := Kuf Xnew  -- [P, M, N]
  let Knns := knnStack kernel nFeatures Xnew full_cov
  let fs := f.transpose.expandLast  -- [P, M, 1]
  match q_sqrt with
  | none => .error "AttributeError: NoneType object has no attribute shape"
  | some qs =>
    -- [P, 1, M, M]  or  [P, M, 1]
    let q_sqrts :=
      if qs.shape.length == 2 then qs.transpose.expandLast else qs.expandAt1
    let P := Kmms.shape.headD 0  -- map_fn batch length
    let results := (List.range P).map (fun p =>
      bc (Kmns.sliceFirst p) (Kmms.sliceFirst p) (Knns.sliceFirst p)
        (fs.sliceFirst p) full_cov (some (q_sqrts.sliceFirst p)) white)
    let rmu := Tensor.stack (results.map Prod.fst)  -- [P, N, 1]
    let rvar := Tensor.stack (results.map Prod.snd)  -- [P, 1, N, N] or [P, N, 1]
    let fmu := rollaxis_left (rmu.sliceLast 0) 1  -- [N, P]
    let fvar :=
      if full_cov then rvar.removeAxis (rvar.shape.length - 3) 0  -- [P, N, N]
      else rollaxis_left (rvar.sliceLast 0) 1  -- [N, P]
    .ok ((fmu, expand_independent_outputs fvar full_cov full_output_cov),
      [.kuu default_jitter, .kuf] ++ (List.range P).map (fun p =>
        .baseConditional (Kmns.sliceFirst p).shape (Kmms.sliceFirst p).shape
          (Knns.sliceFirst p).shape full_cov false))

/-- Regime §4.5 (source lines 132-170): `{Shared,Separate}IndependentMof` ×
`SeparateMixedMok`; delegates to `independent_interdomain_conditional`. -/
def conditional_interdomain (iic : JointCondFn)
    (Kuu : ℚ → Tensor) (Kuf : Tensor → Tensor)
    (kcall : Tensor → Bool → Bool → Tensor)
    (Xnew f : Tensor) (full_cov full_output_cov : Bool)
    (q_sqrt : Option Tensor) (white : Bool) : CondResult :=
  let Kmm := Kuu default_jitter  -- [L, M, M]
  let Kmn := Kuf Xnew  -- [M, L, N, P]
  let Knn := kcall Xnew full_cov full_output_cov
  let r := iic Kmn Kmm Knn f full_cov full_output_cov q_sqrt white
  .ok (r, [.kuu default_jitter, .kuf,
    .independentInterdomain Kmn.shape Kmm.shape full_cov full_output_cov])

/-- Regime §4.6 (source lines 173-234): `InducingPoints` × generic `Mok`.
When `full_cov == full_output_cov` the `(M, L)` and `(N, K)` axis pairs are
flattened and a single `base_conditional` call is made; otherwise the
regime delegates to `fully_correlated_conditional` on the `[M*L, N, K]`
reshape of `Kmn`. -/
def conditional_inducing_points (bc : BaseCondFn) (fcc : JointCondFn)
    (Kuu : ℚ → Tensor) (Kuf : Tensor → Tensor)
    (kcall : Tensor → Bool → Bool → Tensor)
    (Xnew f : Tensor) (full_cov full_output_cov : Bool)
    (q_sqrt : Option Tensor) (white : Bool) : CondResult :=
  let Kmm0 := Kuu default_jitter  -- [M, L, M, L]
  let Kmn0 := Kuf Xnew  -- [M, L, N, K]
  let Knn0 := kcall Xnew full_cov full_output_cov
  let M := Kmn0.shape.getD 0 0
  let L := Kmn0.shape.getD 1 0
  let N := Kmn0.shape.getD 2 0
  let K := Kmn0.shape.getD 3 0
  let Kmm := Kmm0.reshape [M * L, M * L]
  if full_cov == full_output_cov then
    let Kmn := Kmn0.reshape [M * L, N * K]
    let Knn :=
      if full_cov then Knn0.reshape [N * K, N * K] else Knn0.reshape [N * K]
    let r := bc Kmn Kmm Knn f full_cov q_sqrt white
    let fmean := r.1.reshape [N, K]
    let fvar := r.2.reshape (if full_cov then [N, K, N, K] else [N, K])
    .ok ((fmean, fvar),
      [.kuu default_jitter, .kuf,
       .baseConditional Kmn.shape Kmm.shape Knn.shape full_cov q_sqrt.isNone])
  else
    let Kmn := Kmn0.reshape [M * L, N, K]
    let r := fcc Kmn Kmm Knn0 f full_cov full_output_cov q_sqrt white
    .ok (r, [.kuu default_jitter, .kuf,
      .fullyCorrelated Kmn.shape Kmm.shape full_cov full_output_cov])

/-- Regime §4.7 (source lines 237-271): `MixedKernel{Shared,Separate}Mof` ×
`SeparateMixedMok`.  Reuses the batched-independent implementation with
`full_output_cov=False`, then mixes the latents through `kernel.W`. -/
def conditional_mixed_kernel (bc : BaseCondFn)
    (Kuu : ℚ → Tensor) (Kuf : Tensor → Tensor)
    (kernel : MoKernel) (nFeatures : Nat)
    (Xnew f : Tensor) (full_cov full_output_cov : Bool)
    (q_sqrt : Option Tensor) (white : Bool) : CondResult :=
  match conditional_separate_independent bc Kuu Kuf kernel nFeatures
      Xnew f full_cov false q_sqrt white with
  | .error e => .error e
  | .ok inner =>
    let gmu := inner.1.1  -- [N, L]
    let gvar := inner.1.2  -- [L, N, N] or [N, L]
    .ok (mix_latent_gp kernel.W gmu gvar full_cov full_output_cov,
      .innerConditional full_cov false ::
        (inner.2 ++ [.mixLatent full_cov full_output_cov]))

/-! ## Concrete instances for evaluation

Simple concrete tensors and collaborator instances satisfying the documented
shape contracts, used to evaluate the regime implementations on closed
inputs. -/

/-- A tensor of the given shape with all entries equal to `v`. -/
def tconst (s : List Nat) (v : ℚ) : Tensor := ⟨s, fun _ => v⟩

/-- A concrete `base_conditional` instance obeying the §4.2 shape contract. -/
def bcStub : BaseCondFn := fun Kmn _ _ f fc _ _ =>
  (⟨[Kmn.shape.getD 1 0, f.shape.getD 1 0], fun _ => 1⟩,
   ⟨if fc then [f.shape.getD 1 0, Kmn.shape.getD 1 0, Kmn.shape.getD 1 0]
     else [Kmn.shape.getD 1 0, f.shape.getD 1 0], fun _ => 2⟩)

/-- A concrete joint-conditional instance obeying the §4.5b shape contract,
reading `N` and `P` off the given axes of its `Kmn` argument. -/
def jointStub (axisN axisP : Nat) : JointCondFn := fun Kmn _ _ _ fc foc _ _ =>
  (⟨[Kmn.shape.getD axisN 0, Kmn.shape.getD axisP 0], fun _ => 3⟩,
   ⟨varianceShape (Kmn.shape.getD axisN 0) (Kmn.shape.getD axisP 0) fc foc,
    fun _ => 4⟩)

/-! ## Index-arithmetic lemmas -/

lemma flat2_lt {n N k K : Nat} (hn : n < N) (hk : k < K) :
    n * K + k < N * K := by
  calc n * K + k < n * K + K := by omega
    _ = (n + 1) * K := by ring
    _ ≤ N * K := Nat.mul_le_mul_right K hn

lemma mul_add_div_self {a r B : Nat} (h : r < B) : (a * B + r) / B = a := by
  have hB : 0 < B := Nat.lt_of_le_of_lt (Nat.zero_le r) h
  rw [Nat.add_comm, Nat.add_mul_div_right r a hB, Nat.div_eq_of_lt h]
  omega

lemma mul_add_mod_self {a r B : Nat} (h : r < B) : (a * B + r) % B = r := by
  rw [Nat.add_comm, Nat.add_mul_mod_self_right, Nat.mod_eq_of_lt h]

/-- Unflattening a row-major position within a rank-2 shape. -/
lemma unflatten_two {N K n k : Nat} (hk : k < K) :
    unflatten [N, K] (n * K + k) = [n, k] := by
  simp only [unflatten, List.prod_cons, List.prod_nil, Nat.mul_one,
    Nat.div_one, Nat.mod_one]
  rw [mul_add_div_self hk, mul_add_mod_self hk]

/-- Unflattening a row-major position within a rank-4 shape. -/
lemma unflatten_four {M L N K m l n k : Nat}
    (hl : l < L) (hn : n < N) (hk : k < K) :
    unflatten [M, L, N, K] (((m * L + l) * N + n) * K + k) = [m, l, n, k] := by
  have hx : ((m * L + l) * N + n) * K + k
      = m * (L * (N * K)) + ((l * N + n) * K + k) := by ring
  have hr : (l * N + n) * K + k < L * (N * K) := by
    have h1 : l * N + n < L * N := flat2_lt hl hn
    calc (l * N + n) * K + k < (L * N) * K := flat2_lt h1 hk
      _ = L * (N * K) := by ring
  have hy : (l * N + n) * K + k = l * (N * K) + (n * K + k) := by ring
  have hnk : n * K + k < N * K := flat2_lt hn hk
  simp only [unflatten, List.prod_cons, List.prod_nil, Nat.mul_one]
  rw [hx, mul_add_div_self hr, mul_add_mod_self hr, hy,
    mul_add_div_self hnk, mul_add_mod_self hnk,
    mul_add_div_self hk, mul_add_mod_self hk, Nat.div_one]

/-- Unflattening a row-major position within a rank-1 shape. -/
lemma unflatten_one (N x : Nat) : unflatten [N] x = [x] := by
  simp [unflatten]

/-- Unflattening a row-major position within shape `[A, 1]`. -/
lemma unflatten_pair_one (A x : Nat) : unflatten [A, 1] x = [x, 0] := by
  simp [unflatten, Nat.mod_one]

/-- Unflattening a row-major position within shape `[1, A, A]`. -/
lemma unflatten_one_sq {A a b : Nat} (ha : a < A) (hb : b < A) :
    unflatten [1, A, A] (a * A + b) = [0, a, b] := by
  have hx : a * A + b < A * A := flat2_lt ha hb
  simp only [unflatten, List.prod_cons, List.prod_nil, Nat.mul_one]
  rw [Nat.div_eq_of_lt (by simpa using hx), Nat.mod_eq_of_lt (by simpa using hx),
    mul_add_div_self hb, mul_add_mod_self hb, Nat.div_one]

@[simp] lemma flatIndex_one (N n : Nat) :
    flatIndex [N] [n] = n := by
  simp [flatIndex]

@[simp] lemma flatIndex_two (N K n k : Nat) :
    flatIndex [N, K] [n, k] = n * K + k := by
  simp [flatIndex]

@[simp] lemma flatIndex_three (A B C a b c : Nat) :
    flatIndex [A, B, C] [a, b, c] = (a * B + b) * C + c := by
  simp [flatIndex]; ring

@[simp] lemma flatIndex_four (A B C D a b c d : Nat) :
    flatIndex [A, B, C, D] [a, b, c, d] = ((a * B + b) * C + c) * D + d := by
  simp [flatIndex]; ring

/-! ## Tensor-operation lemmas -/

@[simp] lemma Tensor.reshape_shape (t : Tensor) (s : List Nat) :
    (t.reshape s).shape = s := rfl

@[simp] lemma Tensor.transpose_shape (t : Tensor) :
    t.transpose.shape = t.shape.reverse := rfl

@[simp] lemma Tensor.sliceFirst_shape (t : Tensor) (i : Nat) :
    (t.sliceFirst i).shape = t.shape.tail := rfl

@[simp] lemma Tensor.sliceLast_shape (t : Tensor) (i : Nat) :
    (t.sliceLast i).shape = t.shape.dropLast := rfl

@[simp] lemma Tensor.expandLast_shape (t : Tensor) :
    t.expandLast.shape = t.shape ++ [1] := rfl

@[simp] lemma Tensor.stack_shape (ts : List Tensor) :
    (Tensor.stack ts).shape = ts.length :: (ts.getD 0 Tensor.zero).shape := rfl

@[simp] lemma Tensor.reshape_data (t : Tensor) (s : List Nat) (idx : List Nat) :
    (t.reshape s).data idx = t.data (unflatten t.shape (flatIndex s idx)) := rfl

/-! ## List-access lemmas -/

lemma getD_map_of_lt {α β : Type} (f : α → β) (l : List α) (p : Nat)
    (hp : p < l.length) (d : α) (z : β) :
    (l.map f).getD p z = f (l.getD p d) := by
  simp [List.getD, List.getElem?_map, List.getElem?_eq_getElem, hp]

lemma getD_map_range {β : Type} (g : Nat → β) (P p : Nat) (hp : p < P)
    (z : β) : ((List.range P).map g).getD p z = g p := by
  rw [getD_map_of_lt g _ p (by simpa using hp) 0 z]
  simp [List.getD, List.getElem?_range, hp]

lemma getD_replicate_of_lt {α : Type} (a : α) (n p : Nat) (hp : p < n)
    (d : α) : (List.replicate n a).getD p d = a := by
  simp [List.getD, List.getElem?_replicate, hp]

/-! ## Contract lemmas for the concrete instances -/

lemma bcStub_contract : BaseCondShapeContract bcStub := by
  intro Kmn Kmm Knn f fc q w M N P hK hf
  constructor <;> simp [bcStub, hK, hf]

lemma jointStub_contract (N P axisN axisP : Nat) :
    JointCondShapeContract (jointStub axisN axisP) N P axisN axisP := by
  intro Kmn Kmm Knn f fc foc q w hN hP
  constructor
  · show [Kmn.shape.getD axisN 0, Kmn.shape.getD axisP 0] = [N, P]
    rw [hN, hP]
  · show varianceShape (Kmn.shape.getD axisN 0) (Kmn.shape.getD axisP 0) fc foc
      = varianceShape N P fc foc
    rw [hN, hP]

@[simp] lemma Tensor.removeAxis_shape (t : Tensor) (k i : Nat) :
    (t.removeAxis k i).shape = t.shape.eraseIdx k := rfl

@[simp] lemma okD_ok (x : (Tensor × Tensor) × List CallEvent) :
    okD (.ok x) = x := rfl

@[simp] lemma okD_error (e : String) :
    okD (.error e) = ((Tensor.zero, Tensor.zero), []) := rfl

/-! ## Shape lemmas for the regimes -/

/-- Regime §4.3 returns a mean `[N, P]` and a variance in the canonical
layout, provided `base_conditional` obeys its shape contract. -/
lemma shape_shared_shared
    (bc : BaseCondFn) (Kuu : ℚ → Tensor) (Kuf : Tensor → Tensor)
    (kcall : Tensor → Bool → Bool → Tensor) (Xnew f : Tensor)
    (fc foc w : Bool) (q : Option Tensor) (M N P : Nat)
    (hbc : BaseCondShapeContract bc)
    (hKmn : (Kuf Xnew).shape = [M, N])
    (hf : f.shape = [M, P]) :
    (okD (conditional_shared_shared bc Kuu Kuf kcall Xnew f fc foc q w)).1.1.shape
      = [N, P] ∧
    (okD (conditional_shared_shared bc Kuu Kuf kcall Xnew f fc foc q w)).1.2.shape
      = varianceShape N P fc foc := by
  cases fc with
  | false =>
    have h := hbc (Kuf Xnew) (Kuu default_jitter)
      ((kcall Xnew false false).sliceLast 0) f false q w M N P hKmn hf
    cases foc <;>
      simp only [conditional_shared_shared, okD, expand_independent_outputs,
        varianceShape, Bool.false_eq_true, if_false, ite_false] <;>
      simp [h.1, h.2]
  | true =>
    have h := hbc (Kuf Xnew) (Kuu default_jitter)
      ((kcall Xnew true false).sliceFirst 0) f true q w M N P hKmn hf
    cases foc <;>
      simp only [conditional_shared_shared, okD, expand_independent_outputs,
        varianceShape, if_true, ite_true] <;>
      simp [h.1, h.2]

/-- Regime §4.5 returns a mean `[N, P]` and a variance in the canonical
layout, provided `independent_interdomain_conditional` obeys its shape
contract. -/
lemma shape_interdomain
    (iic : JointCondFn) (Kuu : ℚ → Tensor) (Kuf : Tensor → Tensor)
    (kcall : Tensor → Bool → Bool → Tensor) (Xnew f : Tensor)
    (fc foc w : Bool) (q : Option Tensor) (M L N P : Nat)
    (hiic : JointCondShapeContract iic N P 2 3)
    (hKmn : (Kuf Xnew).shape = [M, L, N, P]) :
    (okD (conditional_interdomain iic Kuu Kuf kcall Xnew f fc foc q w)).1.1.shape
      = [N, P] ∧
    (okD (conditional_interdomain iic Kuu Kuf kcall Xnew f fc foc q w)).1.2.shape
      = varianceShape N P fc foc := by
  have h := hiic (Kuf Xnew) (Kuu default_jitter) (kcall Xnew fc foc) f fc foc q w
    (by rw [hKmn]; rfl) (by rw [hKmn]; rfl)
  simp only [conditional_interdomain, okD]
  exact h

@[simp] lemma rollaxis_left_shape (t : Tensor) (num : Nat) :
    (rollaxis_left t num).shape = t.shape.drop num ++ t.shape.take num := rfl

/-- Regime §4.4 succeeds when `q_sqrt` is supplied, and returns a mean
`[N, P]` and a variance in the canonical layout, provided
`base_conditional` obeys its shape contract. -/
lemma shape_separate_independent
    (bc : BaseCondFn) (Kuu : ℚ → Tensor) (Kuf : Tensor → Tensor)
    (kernel : MoKernel) (nF : Nat) (Xnew f qs : Tensor)
    (fc foc w : Bool) (P M N : Nat)
    (hbc : BaseCondShapeContract bc) (hP : 0 < P)
    (hKmms : (Kuu default_jitter).shape = [P, M, M])
    (hKmns : (Kuf Xnew).shape = [P, M, N])
    (hf : f.shape = [M, P]) :
    (okD (conditional_separate_independent bc Kuu Kuf kernel nF Xnew f fc foc
      (some qs) w)).1.1.shape = [N, P] ∧
    (okD (conditional_separate_independent bc Kuu Kuf kernel nF Xnew f fc foc
      (some qs) w)).1.2.shape = varianceShape N P fc foc := by
  have hP' : (Kuu default_jitter).shape.headD 0 = P := by rw [hKmms]; rfl
  have hKmn0 : ((Kuf Xnew).sliceFirst 0).shape = [M, N] := by
    rw [Tensor.sliceFirst_shape, hKmns]; rfl
  have hfs0 : ((f.transpose.expandLast).sliceFirst 0).shape = [M, 1] := by
    simp [hf]
  have hbc0 := hbc ((Kuf Xnew).sliceFirst 0) ((Kuu default_jitter).sliceFirst 0)
    ((knnStack kernel nF Xnew fc).sliceFirst 0) ((f.transpose.expandLast).sliceFirst 0)
    fc (some ((if qs.shape.length == 2 then qs.transpose.expandLast
      else qs.expandAt1).sliceFirst 0)) w M N 1 hKmn0 hfs0
  constructor
  · simp only [conditional_separate_independent, okD, rollaxis_left_shape,
      Tensor.sliceLast_shape, Tensor.stack_shape, List.map_map, hP']
    rw [getD_map_range _ P 0 hP]
    simp only [Function.comp]
    rw [hbc0.1]
    simp
  · cases fc <;> cases foc <;>
      simp only [conditional_separate_independent, okD, rollaxis_left_shape,
        Tensor.sliceLast_shape, Tensor.stack_shape, Tensor.removeAxis_shape,
        List.map_map, hP', Bool.false_eq_true, if_false, ite_false, if_true,
        ite_true, expand_independent_outputs, varianceShape] <;>
      rw [getD_map_range _ P 0 hP] <;>
      simp only [Function.comp] <;>
      rw [hbc0.2] <;>
      simp

/-- Regime §4.6 returns a mean `[N, K]` and a variance in the canonical
layout, provided `fully_correlated_conditional` obeys its shape contract
(in the equal-flags branch the shapes are forced by the final reshapes). -/
lemma shape_inducing_points
    (bc : BaseCondFn) (fcc : JointCondFn) (Kuu : ℚ → Tensor) (Kuf : Tensor → Tensor)
    (kcall : Tensor → Bool → Bool → Tensor) (Xnew f : Tensor)
    (fc foc w : Bool) (q : Option Tensor) (M L N K : Nat)
    (hfcc : JointCondShapeContract fcc N K 1 2)
    (hKmn : (Kuf Xnew).shape = [M, L, N, K]) :
    (okD (conditional_inducing_points bc fcc Kuu Kuf kcall Xnew f fc foc q w)).1.1.shape
      = [N, K] ∧
    (okD (conditional_inducing_points bc fcc Kuu Kuf kcall Xnew f fc foc q w)).1.2.shape
      = varianceShape N K fc foc := by
  have hM : (Kuf Xnew).shape[0]?.getD 0 = M := by rw [hKmn]; rfl
  have hL : (Kuf Xnew).shape[1]?.getD 0 = L := by rw [hKmn]; rfl
  have hN : (Kuf Xnew).shape[2]?.getD 0 = N := by rw [hKmn]; rfl
  have hK : (Kuf Xnew).shape[3]?.getD 0 = K := by rw [hKmn]; rfl
  have hfc := hfcc ((Kuf Xnew).reshape [M * L, N, K])
    ((Kuu default_jitter).reshape [M * L, M * L]) (kcall Xnew fc foc) f fc foc q w
    rfl rfl
  cases fc <;> cases foc <;>
    simp [conditional_inducing_points, okD, hM, hL, hN, hK, varianceShape,
      hfc.1, hfc.2]

/-- With a supplied `q_sqrt`, regime §4.7 reduces to mixing the result of the
batched-independent regime invoked with `full_output_cov = False`. -/
lemma mixed_kernel_ok (bc : BaseCondFn) (Kuu : ℚ → Tensor) (Kuf : Tensor → Tensor)
    (kernel : MoKernel) (nF : Nat) (Xnew f qs : Tensor)
    (fc foc w : Bool) :
    conditional_mixed_kernel bc Kuu Kuf kernel nF Xnew f fc foc (some qs) w
      = .ok (mix_latent_gp kernel.W
          (okD (conditional_separate_independent bc Kuu Kuf kernel nF Xnew f
            fc false (some qs) w)).1.1
          (okD (conditional_separate_independent bc Kuu Kuf kernel nF Xnew f
            fc false (some qs) w)).1.2 fc foc,
        .innerConditional fc false ::
          ((okD (conditional_separate_independent bc Kuu Kuf kernel nF Xnew f
            fc false (some qs) w)).2 ++ [.mixLatent fc foc])) := rfl

/-- Regime §4.7 returns a mean `[N, P]` and a variance in the canonical
layout, provided `base_conditional` obeys its shape contract. -/
lemma shape_mixed
    (bc : BaseCondFn) (Kuu : ℚ → Tensor) (Kuf : Tensor → Tensor)
    (ks : List SingleKernel) (Wt : Tensor) (nF : Nat) (Xnew f qs : Tensor)
    (fc foc w : Bool) (P L M N : Nat)
    (hbc : BaseCondShapeContract bc) (hL : 0 < L)
    (hKmms : (Kuu default_jitter).shape = [L, M, M])
    (hKmns : (Kuf Xnew).shape = [L, M, N])
    (hf : f.shape = [M, L])
    (hW : Wt.shape = [P, L]) :
    (okD (conditional_mixed_kernel bc Kuu Kuf (.separateMixedMok ks Wt) nF Xnew f
      fc foc (some qs) w)).1.1.shape = [N, P] ∧
    (okD (conditional_mixed_kernel bc Kuu Kuf (.separateMixedMok ks Wt) nF Xnew f
      fc foc (some qs) w)).1.2.shape = varianceShape N P fc foc := by
  have hin := shape_separate_independent bc Kuu Kuf (.separateMixedMok ks Wt) nF
    Xnew f qs fc false w L M N hbc hL hKmms hKmns hf
  rw [mixed_kernel_ok, okD_ok]
  constructor
  · simp [mix_latent_gp, MoKernel.W, hin.1, hW]
  · cases fc <;> cases foc <;>
      simp [mix_latent_gp, MoKernel.W, varianceShape, hin.1, hW]

/-! ## Claim theorems -/

/-- Claim C3: the spec asserts that every regime accepts `q_sqrt = None` and
returns the prior-conditioned result.  The batched-independent regime
(source line 111) unconditionally evaluates `q_sqrt.shape.ndims`, so a
`None` `q_sqrt` raises an `AttributeError` there (and in the mixed-kernel
regime that reuses it), although the function signature itself defaults
`q_sqrt` to `None`; the other three regimes pass `q_sqrt` through and
succeed.  This theorem evaluates all five regimes at `q_sqrt = none`. -/
theorem c3_qsqrt_none_crashes_batched_regime :
    conditional_separate_independent bcStub (fun _ => tconst [1, 1, 1] 1)
      (fun _ => tconst [1, 1, 1] 1) (.separateIndependentMok [SingleKernel.zero]) 1
      (tconst [1, 1] 0) (tconst [1, 1] 0) false false none false
      = .error "AttributeError: NoneType object has no attribute shape" ∧
    conditional_mixed_kernel bcStub (fun _ => tconst [1, 1, 1] 1)
      (fun _ => tconst [1, 1, 1] 1) (.separateMixedMok [SingleKernel.zero] (tconst [1, 1] 1)) 1
      (tconst [1, 1] 0) (tconst [1, 1] 0) false false none false
      = .error "AttributeError: NoneType object has no attribute shape" ∧
    conditional_shared_shared bcStub (fun _ => tconst [1, 1] 1)
      (fun _ => tconst [1, 1] 1) (fun _ _ _ => tconst [1, 1] 1)
      (tconst [1, 1] 0) (tconst [1, 1] 0) false false none false
      = .ok (okD (conditional_shared_shared bcStub (fun _ => tconst [1, 1] 1)
          (fun _ => tconst [1, 1] 1) (fun _ _ _ => tconst [1, 1] 1)
          (tconst [1, 1] 0) (tconst [1, 1] 0) false false none false)) ∧
    conditional_interdomain (jointStub 2 3) (fun _ => tconst [1, 1, 1] 1)
      (fun _ => tconst [1, 1, 1, 1] 1) (fun _ _ _ => tconst [1, 1] 1)
      (tconst [1, 1] 0) (tconst [1, 1] 0) false false none false
      = .ok (okD (conditional_interdomain (jointStub 2 3) (fun _ => tconst [1, 1, 1] 1)
          (fun _ => tconst [1, 1, 1, 1] 1) (fun _ _ _ => tconst [1, 1] 1)
          (tconst [1, 1] 0) (tconst [1, 1] 0) false false none false)) ∧
    conditional_inducing_points bcStub (jointStub 1 2) (fun _ => tconst [1, 1, 1, 1] 1)
      (fun _ => tconst [1, 1, 1, 1] 1) (fun _ _ _ => tconst [1, 1] 1)
      (tconst [1, 1] 0) (tconst [1, 1] 0) false false none false
      = .ok (okD (conditional_inducing_points bcStub (jointStub 1 2)
          (fun _ => tconst [1, 1, 1, 1] 1) (fun _ => tconst [1, 1, 1, 1] 1)
          (fun _ _ _ => tconst [1, 1] 1)
          (tconst [1, 1] 0) (tconst [1, 1] 0) false false none false)) :=
  ⟨rfl, rfl, rfl, rfl, rfl⟩

/-- Claim C9: in every regime the trace begins with a `Kuu` collaborator call
carrying the process-wide `default_jitter` constant, and this call occurs
strictly before any helper call that performs a Cholesky factorization. -/
theorem c9_kuu_default_jitter_before_cholesky
    (bc : BaseCondFn) (iic fcc : JointCondFn)
    (Kuu : ℚ → Tensor) (Kuf : Tensor → Tensor)
    (kcall : Tensor → Bool → Bool → Tensor) (kernel : MoKernel) (nF : Nat)
    (Xnew f qs : Tensor) (q : Option Tensor) (fc foc w : Bool) :
    CallEvent.kuu default_jitter ∈ (okD (conditional_shared_shared bc Kuu Kuf kcall
      Xnew f fc foc q w)).2.takeWhile (fun e => !e.choleskyBearing) ∧
    CallEvent.kuu default_jitter ∈ (okD (conditional_separate_independent bc Kuu Kuf
      kernel nF Xnew f fc foc (some qs) w)).2.takeWhile (fun e => !e.choleskyBearing) ∧
    CallEvent.kuu default_jitter ∈ (okD (conditional_interdomain iic Kuu Kuf kcall
      Xnew f fc foc q w)).2.takeWhile (fun e => !e.choleskyBearing) ∧
    CallEvent.kuu default_jitter ∈ (okD (conditional_inducing_points bc fcc Kuu Kuf
      kcall Xnew f fc foc q w)).2.takeWhile (fun e => !e.choleskyBearing) ∧
    CallEvent.kuu default_jitter ∈ (okD (conditional_mixed_kernel bc Kuu Kuf kernel
      nF Xnew f fc foc (some qs) w)).2.takeWhile (fun e => !e.choleskyBearing) := by
  refine ⟨?_, ?_, ?_, ?_, ?_⟩
  · simp [conditional_shared_shared, okD, CallEvent.choleskyBearing, List.takeWhile]
  · simp [conditional_separate_independent, okD, CallEvent.choleskyBearing,
      List.takeWhile]
  · simp [conditional_interdomain, okD, CallEvent.choleskyBearing, List.takeWhile]
  · cases fc <;> cases foc <;>
      simp [conditional_inducing_points, okD, CallEvent.choleskyBearing,
        List.takeWhile]
  · simp [conditional_mixed_kernel, conditional_separate_independent, okD,
      CallEvent.choleskyBearing, List.takeWhile]

/-- Claim C10: the mixed-kernel regime invokes the inner batched-independent
computation with `full_output_cov = False` regardless of the caller's flag
(the trace records the inner call's flags), and its result is exactly the
mixing-combination of that inner result, so any cross-output covariance
comes solely from `mix_latent_gp`. -/
theorem c10_mixed_inner_called_without_output_cov
    (bc : BaseCondFn) (Kuu : ℚ → Tensor) (Kuf : Tensor → Tensor)
    (kernel : MoKernel) (nF : Nat) (Xnew f qs : Tensor) (fc foc w : Bool) :
    (okD (conditional_mixed_kernel bc Kuu Kuf kernel nF Xnew f fc foc
      (some qs) w)).1
      = mix_latent_gp kernel.W
          (okD (conditional_separate_independent bc Kuu Kuf kernel nF Xnew f
            fc false (some qs) w)).1.1
          (okD (conditional_separate_independent bc Kuu Kuf kernel nF Xnew f
            fc false (some qs) w)).1.2 fc foc ∧
    (okD (conditional_mixed_kernel bc Kuu Kuf kernel nF Xnew f fc foc
      (some qs) w)).2.headD .kuf = .innerConditional fc false := by
  rw [mixed_kernel_ok]
  exact ⟨rfl, rfl⟩

/-- Claim C5: in the shared-kernel baseline regime (§4.3) and the
batched-independent regime (§4.4), a requested full output covariance is a
diagonal embedding: every off-diagonal entry of the output-covariance axes
of the returned variance is exactly zero, for any collaborators and
inputs. -/
theorem c5_output_expansion_offdiag_zero
    (bc : BaseCondFn) (Kuu : ℚ → Tensor) (Kuf : Tensor → Tensor)
    (kcall : Tensor → Bool → Bool → Tensor) (kernel : MoKernel) (nF : Nat)
    (Xnew f qs : Tensor) (q : Option Tensor) (w : Bool)
    (n p m p2 : Nat) (hne : p ≠ p2) :
    (okD (conditional_shared_shared bc Kuu Kuf kcall Xnew f true true q w)).1.2.data
      [n, p, m, p2] = 0 ∧
    (okD (conditional_shared_shared bc Kuu Kuf kcall Xnew f false true q w)).1.2.data
      [n, p, p2] = 0 ∧
    (okD (conditional_separate_independent bc Kuu Kuf kernel nF Xnew f true true
      (some qs) w)).1.2.data [n, p, m, p2] = 0 ∧
    (okD (conditional_separate_independent bc Kuu Kuf kernel nF Xnew f false true
      (some qs) w)).1.2.data [n, p, p2] = 0 := by
  refine ⟨?_, ?_, ?_, ?_⟩ <;>
    simp [conditional_shared_shared, conditional_separate_independent, okD,
      expand_independent_outputs, hne]

/-- Witness for C5 at a concrete input. -/
theorem c5_output_expansion_offdiag_zero_witness :
    (okD (conditional_shared_shared bcStub (fun _ => Tensor.zero)
      (fun _ => Tensor.zero) (fun _ _ _ => Tensor.zero) Tensor.zero Tensor.zero
      true true none false)).1.2.data [0, 0, 0, 1] = 0 ∧
    (okD (conditional_shared_shared bcStub (fun _ => Tensor.zero)
      (fun _ => Tensor.zero) (fun _ _ _ => Tensor.zero) Tensor.zero Tensor.zero
      false true none false)).1.2.data [0, 0, 1] = 0 ∧
    (okD (conditional_separate_independent bcStub (fun _ => Tensor.zero)
      (fun _ => Tensor.zero) (.sharedIndependentMok SingleKernel.zero) 1
      Tensor.zero Tensor.zero true true (some Tensor.zero) false)).1.2.data
      [0, 0, 0, 1] = 0 ∧
    (okD (conditional_separate_independent bcStub (fun _ => Tensor.zero)
      (fun _ => Tensor.zero) (.sharedIndependentMok SingleKernel.zero) 1
      Tensor.zero Tensor.zero false true (some Tensor.zero) false)).1.2.data
      [0, 0, 1] = 0 :=
  c5_output_expansion_offdiag_zero bcStub (fun _ => Tensor.zero)
    (fun _ => Tensor.zero) (fun _ _ _ => Tensor.zero)
    (.sharedIndependentMok SingleKernel.zero) 1 Tensor.zero Tensor.zero
    Tensor.zero none false 0 0 0 1 (by decide)

/-- Claim C7: in the batched-independent regime the per-output `Knn` tensor
stacks, over the outputs, each constituent kernel's full covariance
(`full_cov`) or diagonal, where the constituents are the `Combination`
kernel's own list (both `Combination` subclasses), and otherwise the single
underlying kernel repeated once per feature set. -/
theorem c7_knn_per_output_stacking
    (ks : List SingleKernel) (k0 : SingleKernel) (Wt : Tensor) (nF : Nat)
    (Xnew : Tensor) (fc : Bool) (p : Nat) (idx : List Nat)
    (hp : p < ks.length) (hq : p < nF) :
    ((knnStack (.separateIndependentMok ks) nF Xnew fc).data (p :: idx)
      = (if fc then (ks.getD p SingleKernel.zero).K Xnew
          else (ks.getD p SingleKernel.zero).K_diag Xnew).data idx) ∧
    (knnStack (.separateIndependentMok ks) nF Xnew fc).shape.headD 0 = ks.length ∧
    ((knnStack (.separateMixedMok ks Wt) nF Xnew fc).data (p :: idx)
      = (if fc then (ks.getD p SingleKernel.zero).K Xnew
          else (ks.getD p SingleKernel.zero).K_diag Xnew).data idx) ∧
    ((knnStack (.sharedIndependentMok k0) nF Xnew fc).data (p :: idx)
      = (if fc then k0.K Xnew else k0.K_diag Xnew).data idx) ∧
    (knnStack (.sharedIndependentMok k0) nF Xnew fc).shape.headD 0 = nF := by
  refine ⟨?_, ?_, ?_, ?_, ?_⟩
  · simp only [knnStack, MoKernel.isCombination, MoKernel.kernels, if_true,
      Tensor.stack]
    rw [getD_map_of_lt _ ks p hp SingleKernel.zero]
  · simp [knnStack, MoKernel.isCombination, MoKernel.kernels, Tensor.stack]
  · simp only [knnStack, MoKernel.isCombination, MoKernel.kernels, if_true,
      Tensor.stack]
    rw [getD_map_of_lt _ ks p hp SingleKernel.zero]
  · simp only [knnStack, MoKernel.isCombination, MoKernel.kernel,
      Bool.false_eq_true, if_false, ite_false, Tensor.stack]
    rw [getD_map_of_lt _ (List.replicate nF k0) p (by simpa using hq)
      SingleKernel.zero, getD_replicate_of_lt k0 nF p hq SingleKernel.zero]
  · simp [knnStack, MoKernel.isCombination, MoKernel.kernel, Tensor.stack]

/-- Witness for C7 at a concrete input. -/
theorem c7_knn_per_output_stacking_witness :
    ((knnStack (.separateIndependentMok [SingleKernel.zero]) 1 Tensor.zero
      false).data (0 :: [])
      = (if false then ([SingleKernel.zero].getD 0 SingleKernel.zero).K Tensor.zero
          else ([SingleKernel.zero].getD 0 SingleKernel.zero).K_diag
            Tensor.zero).data []) ∧
    (knnStack (.separateIndependentMok [SingleKernel.zero]) 1 Tensor.zero
      false).shape.headD 0 = [SingleKernel.zero].length ∧
    ((knnStack (.separateMixedMok [SingleKernel.zero] Tensor.zero) 1 Tensor.zero
      false).data (0 :: [])
      = (if false then ([SingleKernel.zero].getD 0 SingleKernel.zero).K Tensor.zero
          else ([SingleKernel.zero].getD 0 SingleKernel.zero).K_diag
            Tensor.zero).data []) ∧
    ((knnStack (.sharedIndependentMok SingleKernel.zero) 1 Tensor.zero
      false).data (0 :: [])
      = (if false then SingleKernel.zero.K Tensor.zero
          else SingleKernel.zero.K_diag Tensor.zero).data []) ∧
    (knnStack (.sharedIndependentMok SingleKernel.zero) 1 Tensor.zero
      false).shape.headD 0 = 1 :=
  c7_knn_per_output_stacking [SingleKernel.zero] SingleKernel.zero Tensor.zero 1
    Tensor.zero false 0 [] (by decide) (by decide)

/-- Claim C8: the shared-feature shared-kernel baseline regime computes
`Kmm : [M, M]`, `Kmn : [M, N]` and `Knn : [N]` or `[N, N]` once each and
performs exactly one `base_conditional` call over the whole `[M, P]` matrix
`f` (the trace is exactly one `Kuu`, one `Kuf` and one `base_conditional`
event); its variance is the §4.6/§4.8 expansion of that single call's
variance. -/
theorem c8_shared_regime_single_base_conditional
    (bc : BaseCondFn) (Kuu : ℚ → Tensor) (Kuf : Tensor → Tensor)
    (kcall : Tensor → Bool → Bool → Tensor) (Xnew f : Tensor)
    (fc foc w : Bool) (q : Option Tensor) (M N P : Nat)
    (hKmm : (Kuu default_jitter).shape = [M, M])
    (hKmn : (Kuf Xnew).shape = [M, N])
    (hKnn : (kcall Xnew fc false).shape = if fc then [P, N, N] else [N, P]) :
    (okD (conditional_shared_shared bc Kuu Kuf kcall Xnew f fc foc q w)).2
      = [.kuu default_jitter, .kuf,
         .baseConditional [M, N] [M, M] (if fc then [N, N] else [N]) fc
           q.isNone] ∧
    (okD (conditional_shared_shared bc Kuu Kuf kcall Xnew f fc foc q w)).1.1
      = (bc (Kuf Xnew) (Kuu default_jitter)
          (if fc then (kcall Xnew fc false).sliceFirst 0
            else (kcall Xnew fc false).sliceLast 0) f fc q w).1 ∧
    (okD (conditional_shared_shared bc Kuu Kuf kcall Xnew f fc foc q w)).1.2
      = expand_independent_outputs
          (bc (Kuf Xnew) (Kuu default_jitter)
            (if fc then (kcall Xnew fc false).sliceFirst 0
              else (kcall Xnew fc false).sliceLast 0) f fc q w).2 fc foc := by
  cases fc <;>
    simp [conditional_shared_shared, okD, hKmm, hKmn, hKnn]

/-- Witness for C8 at a concrete input. -/
theorem c8_shared_regime_single_base_conditional_witness :
    (okD (conditional_shared_shared bcStub (fun _ => tconst [1, 1] 1)
      (fun _ => tconst [1, 1] 1) (fun _ _ _ => tconst [1, 1] 1)
      Tensor.zero Tensor.zero false false none false)).2
      = [.kuu default_jitter, .kuf,
         .baseConditional [1, 1] [1, 1] (if false then [1, 1] else [1]) false
           (none : Option Tensor).isNone] ∧
    (okD (conditional_shared_shared bcStub (fun _ => tconst [1, 1] 1)
      (fun _ => tconst [1, 1] 1) (fun _ _ _ => tconst [1, 1] 1)
      Tensor.zero Tensor.zero false false none false)).1.1
      = (bcStub ((fun (_ : Tensor) => tconst [1, 1] 1) Tensor.zero)
          ((fun (_ : ℚ) => tconst [1, 1] 1) default_jitter)
          (if false then (((fun (_ : Tensor) (_ _ : Bool) => tconst [1, 1] 1)
              Tensor.zero false false)).sliceFirst 0
            else (((fun (_ : Tensor) (_ _ : Bool) => tconst [1, 1] 1)
              Tensor.zero false false)).sliceLast 0) Tensor.zero false none
          false).1 ∧
    (okD (conditional_shared_shared bcStub (fun _ => tconst [1, 1] 1)
      (fun _ => tconst [1, 1] 1) (fun _ _ _ => tconst [1, 1] 1)
      Tensor.zero Tensor.zero false false none false)).1.2
      = expand_independent_outputs
          (bcStub ((fun (_ : Tensor) => tconst [1, 1] 1) Tensor.zero)
            ((fun (_ : ℚ) => tconst [1, 1] 1) default_jitter)
            (if false then (((fun (_ : Tensor) (_ _ : Bool) => tconst [1, 1] 1)
                Tensor.zero false false)).sliceFirst 0
              else (((fun (_ : Tensor) (_ _ : Bool) => tconst [1, 1] 1)
                Tensor.zero false false)).sliceLast 0) Tensor.zero false none
            false).2 false false :=
  c8_shared_regime_single_base_conditional bcStub (fun _ => tconst [1, 1] 1)
    (fun _ => tconst [1, 1] 1) (fun _ _ _ => tconst [1, 1] 1)
    Tensor.zero Tensor.zero false false false none 1 1 1 rfl rfl rfl

/-- Claim C1 counterexample: at a concrete input with `full_cov = true` and
`full_output_cov = false`, the fully-correlated regime performs no
`independent_interdomain_conditional` call at all (so it does not delegate
to the helper used by the independent-latent interdomain regime); it calls
`fully_correlated_conditional` instead. -/
theorem c1_counterexample_not_interdomain_helper :
    ((okD (conditional_inducing_points bcStub (jointStub 1 2)
      (fun _ => tconst [1, 1, 1, 1] 1) (fun _ => tconst [1, 1, 1, 1] 1)
      (fun _ _ _ => tconst [1, 1] 1) (tconst [1, 1] 0) (tconst [1, 1] 0)
      true false none false)).2.any CallEvent.isIndependentInterdomain
      = false) ∧
    ((okD (conditional_inducing_points bcStub (jointStub 1 2)
      (fun _ => tconst [1, 1, 1, 1] 1) (fun _ => tconst [1, 1, 1, 1] 1)
      (fun _ _ _ => tconst [1, 1] 1) (tconst [1, 1] 0) (tconst [1, 1] 0)
      true false none false)).2.any CallEvent.isFullyCorrelated = true) := by
  constructor <;> rfl

/-- Claim C1 (amended): in the fully-correlated regime, whenever
`full_cov ≠ full_output_cov`, the computation delegates to the dedicated
`fully_correlated_conditional` helper — a different helper from the
`independent_interdomain_conditional` used by the independent-latent
interdomain regime — applied to the `Kmn` tensor reshaped to
`[M*L, N, K]`, rather than flattening and calling `base_conditional`. -/
theorem c1_amended_delegates_to_fully_correlated
    (bc : BaseCondFn) (fcc : JointCondFn) (Kuu : ℚ → Tensor)
    (Kuf : Tensor → Tensor) (kcall : Tensor → Bool → Bool → Tensor)
    (Xnew f : Tensor) (fc foc w : Bool) (q : Option Tensor)
    (M L N K m l n k : Nat) (hne : fc ≠ foc)
    (hKmn : (Kuf Xnew).shape = [M, L, N, K])
    (hl : l < L) (hn : n < N) (hk : k < K) :
    (okD (conditional_inducing_points bc fcc Kuu Kuf kcall Xnew f fc foc q w)).2
      = [.kuu default_jitter, .kuf,
         .fullyCorrelated [M * L, N, K] [M * L, M * L] fc foc] ∧
    (okD (conditional_inducing_points bc fcc Kuu Kuf kcall Xnew f fc foc q w)).1
      = fcc ((Kuf Xnew).reshape [M * L, N, K])
          ((Kuu default_jitter).reshape [M * L, M * L]) (kcall Xnew fc foc) f
          fc foc q w ∧
    ((Kuf Xnew).reshape [M * L, N, K]).data [m * L + l, n, k]
      = (Kuf Xnew).data [m, l, n, k] := by
  have hbeq : (fc == foc) = false := by
    cases fc <;> cases foc <;> simp_all
  have hM : (Kuf Xnew).shape[0]?.getD 0 = M := by rw [hKmn]; rfl
  have hL : (Kuf Xnew).shape[1]?.getD 0 = L := by rw [hKmn]; rfl
  have hN : (Kuf Xnew).shape[2]?.getD 0 = N := by rw [hKmn]; rfl
  have hK : (Kuf Xnew).shape[3]?.getD 0 = K := by rw [hKmn]; rfl
  refine ⟨?_, ?_, ?_⟩
  · simp [conditional_inducing_points, okD, hbeq, hM, hL, hN, hK]
  · simp [conditional_inducing_points, okD, hbeq, hM, hL, hN, hK]
  · rw [Tensor.reshape_data, flatIndex_three, hKmn, unflatten_four hl hn hk]

/-- Witness for the amended C1 at a concrete input. -/
theorem c1_amended_delegates_to_fully_correlated_witness :
    (okD (conditional_inducing_points bcStub (jointStub 1 2)
      (fun _ => tconst [1, 1, 1, 1] 2) (fun _ => tconst [1, 1, 1, 1] 3)
      (fun _ _ _ => tconst [1, 1] 5) (tconst [1, 1] 0) (tconst [1, 1] 0)
      true false none false)).2
      = [.kuu default_jitter, .kuf,
         .fullyCorrelated [1 * 1, 1, 1] [1 * 1, 1 * 1] true false] ∧
    (okD (conditional_inducing_points bcStub (jointStub 1 2)
      (fun _ => tconst [1, 1, 1, 1] 2) (fun _ => tconst [1, 1, 1, 1] 3)
      (fun _ _ _ => tconst [1, 1] 5) (tconst [1, 1] 0) (tconst [1, 1] 0)
      true false none false)).1
      = jointStub 1 2
          (((fun (_ : Tensor) => tconst [1, 1, 1, 1] 3) (tconst [1, 1] 0)).reshape
            [1 * 1, 1, 1])
          (((fun (_ : ℚ) => tconst [1, 1, 1, 1] 2) default_jitter).reshape
            [1 * 1, 1 * 1])
          ((fun (_ : Tensor) (_ _ : Bool) => tconst [1, 1] 5) (tconst [1, 1] 0)
            true false)
          (tconst [1, 1] 0) true false none false ∧
    (((fun (_ : Tensor) => tconst [1, 1, 1, 1] 3) (tconst [1, 1] 0)).reshape
      [1 * 1, 1, 1]).data [0 * 1 + 0, 0, 0]
      = ((fun (_ : Tensor) => tconst [1, 1, 1, 1] 3) (tconst [1, 1] 0)).data
          [0, 0, 0, 0] :=
  c1_amended_delegates_to_fully_correlated bcStub (jointStub 1 2)
    (fun _ => tconst [1, 1, 1, 1] 2) (fun _ => tconst [1, 1, 1, 1] 3)
    (fun _ _ _ => tconst [1, 1] 5) (tconst [1, 1] 0) (tconst [1, 1] 0)
    true false false none 1 1 1 1 0 0 0 0 (by decide) rfl
    (by decide) (by decide) (by decide)

/-- Claim C6: the mixed-kernel regime first obtains per-latent mean `[N, L]`
and variance (`[L, N, N]` or `[N, L]`) by reusing the batched-independent
implementation at `full_output_cov = false`, then computes the output mean
`gmu · Wᵀ : [N, P]` and the output variance `W (diag(gvar) or full gvar) Wᵀ`
through `mix_latent_gp` with the kernel's `[P, L]` mixing matrix, producing
one of the four canonical variance layouts. -/
theorem c6_mixed_regime_mixing_combination
    (bc : BaseCondFn) (Kuu : ℚ → Tensor) (Kuf : Tensor → Tensor)
    (ks : List SingleKernel) (Wt : Tensor) (nF : Nat) (Xnew f qs : Tensor)
    (fc foc w : Bool) (P L M N n p : Nat)
    (hbc : BaseCondShapeContract bc) (hL : 0 < L)
    (hKmms : (Kuu default_jitter).shape = [L, M, M])
    (hKmns : (Kuf Xnew).shape = [L, M, N])
    (hf : f.shape = [M, L]) (hW : Wt.shape = [P, L]) :
    (okD (conditional_mixed_kernel bc Kuu Kuf (.separateMixedMok ks Wt) nF
      Xnew f fc foc (some qs) w)).1
      = mix_latent_gp Wt
          (okD (conditional_separate_independent bc Kuu Kuf
            (.separateMixedMok ks Wt) nF Xnew f fc false (some qs) w)).1.1
          (okD (conditional_separate_independent bc Kuu Kuf
            (.separateMixedMok ks Wt) nF Xnew f fc false (some qs) w)).1.2
          fc foc ∧
    (okD (conditional_separate_independent bc Kuu Kuf (.separateMixedMok ks Wt)
      nF Xnew f fc false (some qs) w)).1.1.shape = [N, L] ∧
    (okD (conditional_separate_independent bc Kuu Kuf (.separateMixedMok ks Wt)
      nF Xnew f fc false (some qs) w)).1.2.shape
      = (if fc then [L, N, N] else [N, L]) ∧
    (okD (conditional_mixed_kernel bc Kuu Kuf (.separateMixedMok ks Wt) nF
      Xnew f fc foc (some qs) w)).1.1.shape = [N, P] ∧
    (okD (conditional_mixed_kernel bc Kuu Kuf (.separateMixedMok ks Wt) nF
      Xnew f fc foc (some qs) w)).1.1.data [n, p]
      = sumTo L (fun l =>
          (okD (conditional_separate_independent bc Kuu Kuf
            (.separateMixedMok ks Wt) nF Xnew f fc false (some qs) w)).1.1.data
            [n, l] * Wt.data [p, l]) ∧
    (okD (conditional_mixed_kernel bc Kuu Kuf (.separateMixedMok ks Wt) nF
      Xnew f fc foc (some qs) w)).1.2.shape = varianceShape N P fc foc ∧
    (fc = false → foc = false →
      (okD (conditional_mixed_kernel bc Kuu Kuf (.separateMixedMok ks Wt) nF
        Xnew f fc foc (some qs) w)).1.2.data [n, p]
        = sumTo L (fun l => Wt.data [p, l] * Wt.data [p, l] *
            (okD (conditional_separate_independent bc Kuu Kuf
              (.separateMixedMok ks Wt) nF Xnew f fc false (some qs) w)).1.2.data
              [n, l])) := by
  have hin := shape_separate_independent bc Kuu Kuf (.separateMixedMok ks Wt) nF
    Xnew f qs fc false w L M N hbc hL hKmms hKmns hf
  have hsm := shape_mixed bc Kuu Kuf ks Wt nF Xnew f qs fc foc w P L M N hbc hL
    hKmms hKmns hf hW
  refine ⟨?_, hin.1, ?_, hsm.1, ?_, hsm.2, ?_⟩
  · rw [mixed_kernel_ok]
    rfl
  · cases fc <;> simpa [varianceShape] using hin.2
  · rw [mixed_kernel_ok, okD_ok]
    simp [mix_latent_gp, MoKernel.W, hin.1]
  · intro hfc hfoc
    subst hfc
    subst hfoc
    rw [mixed_kernel_ok, okD_ok]
    simp [mix_latent_gp, MoKernel.W, hin.1]

/-- Witness for C6 at a concrete input. -/
theorem c6_mixed_regime_mixing_combination_witness :
    (okD (conditional_mixed_kernel bcStub (fun _ => tconst [1, 1, 1] 1)
      (fun _ => tconst [1, 1, 1] 1)
      (.separateMixedMok [SingleKernel.zero] (tconst [1, 1] 1)) 1
      Tensor.zero (tconst [1, 1] 0) false false (some (tconst [1, 1] 0))
      false)).1
      = mix_latent_gp (tconst [1, 1] 1)
          (okD (conditional_separate_independent bcStub (fun _ => tconst [1, 1, 1] 1)
            (fun _ => tconst [1, 1, 1] 1)
            (.separateMixedMok [SingleKernel.zero] (tconst [1, 1] 1)) 1
            Tensor.zero (tconst [1, 1] 0) false false (some (tconst [1, 1] 0))
            false)).1.1
          (okD (conditional_separate_independent bcStub (fun _ => tconst [1, 1, 1] 1)
            (fun _ => tconst [1, 1, 1] 1)
            (.separateMixedMok [SingleKernel.zero] (tconst [1, 1] 1)) 1
            Tensor.zero (tconst [1, 1] 0) false false (some (tconst [1, 1] 0))
            false)).1.2
          false false ∧
    (okD (conditional_separate_independent bcStub (fun _ => tconst [1, 1, 1] 1)
      (fun _ => tconst [1, 1, 1] 1)
      (.separateMixedMok [SingleKernel.zero] (tconst [1, 1] 1)) 1
      Tensor.zero (tconst [1, 1] 0) false false (some (tconst [1, 1] 0))
      false)).1.1.shape = [1, 1] ∧
    (okD (conditional_separate_independent bcStub (fun _ => tconst [1, 1, 1] 1)
      (fun _ => tconst [1, 1, 1] 1)
      (.separateMixedMok [SingleKernel.zero] (tconst [1, 1] 1)) 1
      Tensor.zero (tconst [1, 1] 0) false false (some (tconst [1, 1] 0))
      false)).1.2.shape = (if false then [1, 1, 1] else [1, 1]) ∧
    (okD (conditional_mixed_kernel bcStub (fun _ => tconst [1, 1, 1] 1)
      (fun _ => tconst [1, 1, 1] 1)
      (.separateMixedMok [SingleKernel.zero] (tconst [1, 1] 1)) 1
      Tensor.zero (tconst [1, 1] 0) false false (some (tconst [1, 1] 0))
      false)).1.1.shape = [1, 1] ∧
    (okD (conditional_mixed_kernel bcStub (fun _ => tconst [1, 1, 1] 1)
      (fun _ => tconst [1, 1, 1] 1)
      (.separateMixedMok [SingleKernel.zero] (tconst [1, 1] 1)) 1
      Tensor.zero (tconst [1, 1] 0) false false (some (tconst [1, 1] 0))
      false)).1.1.data [0, 0]
      = sumTo 1 (fun l =>
          (okD (conditional_separate_independent bcStub (fun _ => tconst [1, 1, 1] 1)
            (fun _ => tconst [1, 1, 1] 1)
            (.separateMixedMok [SingleKernel.zero] (tconst [1, 1] 1)) 1
            Tensor.zero (tconst [1, 1] 0) false false (some (tconst [1, 1] 0))
            false)).1.1.data [0, l] * (tconst [1, 1] 1).data [0, l]) ∧
    (okD (conditional_mixed_kernel bcStub (fun _ => tconst [1, 1, 1] 1)
      (fun _ => tconst [1, 1, 1] 1)
      (.separateMixedMok [SingleKernel.zero] (tconst [1, 1] 1)) 1
      Tensor.zero (tconst [1, 1] 0) false false (some (tconst [1, 1] 0))
      false)).1.2.shape = varianceShape 1 1 false false ∧
    (false = false → false = false →
      (okD (conditional_mixed_kernel bcStub (fun _ => tconst [1, 1, 1] 1)
        (fun _ => tconst [1, 1, 1] 1)
        (.separateMixedMok [SingleKernel.zero] (tconst [1, 1] 1)) 1
        Tensor.zero (tconst [1, 1] 0) false false (some (tconst [1, 1] 0))
        false)).1.2.data [0, 0]
        = sumTo 1 (fun l => (tconst [1, 1] 1).data [0, l] *
            (tconst [1, 1] 1).data [0, l] *
            (okD (conditional_separate_independent bcStub
              (fun _ => tconst [1, 1, 1] 1) (fun _ => tconst [1, 1, 1] 1)
              (.separateMixedMok [SingleKernel.zero] (tconst [1, 1] 1)) 1
              Tensor.zero (tconst [1, 1] 0) false false
              (some (tconst [1, 1] 0)) false)).1.2.data [0, l])) :=
  c6_mixed_regime_mixing_combination bcStub (fun _ => tconst [1, 1, 1] 1)
    (fun _ => tconst [1, 1, 1] 1) [SingleKernel.zero] (tconst [1, 1] 1) 1
    Tensor.zero (tconst [1, 1] 0) (tconst [1, 1] 0) false false false
    1 1 1 1 0 0 bcStub_contract (by decide) rfl rfl rfl rfl

/-- Claim C2: in the fully-correlated regime with agreeing flags, the
`(M, L)` axis pair of `Kmm` and `Kmn` is flattened to one axis of size
`M*L`, the `(N, K)` axes of `Kmn` and `Knn` to one axis of size `N*K`
(row-major, so entry `(m, l, n, k)` lands at `(m*L+l, n*K+k)`), a single
`base_conditional` call is made on the flattened matrices, and the
resulting mean and variance are unflattened back to `[N, K]`
and `[N, K]` / `[N, K, N, K]`. -/
theorem c2_equal_flags_flatten_and_single_call
    (bc : BaseCondFn) (fcc : JointCondFn) (Kuu : ℚ → Tensor)
    (Kuf : Tensor → Tensor) (kcall : Tensor → Bool → Bool → Tensor)
    (Xnew f : Tensor) (fc w : Bool) (q : Option Tensor)
    (M L N K m l m2 l2 n k n2 k2 : Nat)
    (hbc : BaseCondShapeContract bc)
    (hKmn : (Kuf Xnew).shape = [M, L, N, K])
    (hKmm : (Kuu default_jitter).shape = [M, L, M, L])
    (hKnn : (kcall Xnew fc fc).shape = if fc then [N, K, N, K] else [N, K])
    (hf : f.shape = [M * L, 1])
    (hm2 : m2 < M) (hl : l < L) (hl2 : l2 < L)
    (hn : n < N) (hn2 : n2 < N) (hk : k < K) (hk2 : k2 < K) :
    (okD (conditional_inducing_points bc fcc Kuu Kuf kcall Xnew f fc fc q w)).2
      = [.kuu default_jitter, .kuf,
         .baseConditional [M * L, N * K] [M * L, M * L]
           (if fc then [N * K, N * K] else [N * K]) fc q.isNone] ∧
    ((Kuf Xnew).reshape [M * L, N * K]).data [m * L + l, n * K + k]
      = (Kuf Xnew).data [m, l, n, k] ∧
    ((Kuu default_jitter).reshape [M * L, M * L]).data [m * L + l, m2 * L + l2]
      = (Kuu default_jitter).data [m, l, m2, l2] ∧
    (fc = true →
      ((kcall Xnew fc fc).reshape [N * K, N * K]).data [n * K + k, n2 * K + k2]
        = (kcall Xnew fc fc).data [n, k, n2, k2]) ∧
    (fc = false →
      ((kcall Xnew fc fc).reshape [N * K]).data [n * K + k]
        = (kcall Xnew fc fc).data [n, k]) ∧
    (okD (conditional_inducing_points bc fcc Kuu Kuf kcall Xnew f fc fc q w)).1.1.shape
      = [N, K] ∧
    (okD (conditional_inducing_points bc fcc Kuu Kuf kcall Xnew f fc fc q w)).1.1.data
      [n, k]
      = (bc ((Kuf Xnew).reshape [M * L, N * K])
          ((Kuu default_jitter).reshape [M * L, M * L])
          (if fc then (kcall Xnew fc fc).reshape [N * K, N * K]
            else (kcall Xnew fc fc).reshape [N * K]) f fc q w).1.data
          [n * K + k, 0] ∧
    (fc = false →
      (okD (conditional_inducing_points bc fcc Kuu Kuf kcall Xnew f fc fc q w)).1.2.shape
        = [N, K] ∧
      (okD (conditional_inducing_points bc fcc Kuu Kuf kcall Xnew f fc fc q w)).1.2.data
        [n, k]
        = (bc ((Kuf Xnew).reshape [M * L, N * K])
            ((Kuu default_jitter).reshape [M * L, M * L])
            (if fc then (kcall Xnew fc fc).reshape [N * K, N * K]
              else (kcall Xnew fc fc).reshape [N * K]) f fc q w).2.data
            [n * K + k, 0]) ∧
    (fc = true →
      (okD (conditional_inducing_points bc fcc Kuu Kuf kcall Xnew f fc fc q w)).1.2.shape
        = [N, K, N, K] ∧
      (okD (conditional_inducing_points bc fcc Kuu Kuf kcall Xnew f fc fc q w)).1.2.data
        [n, k, n2, k2]
        = (bc ((Kuf Xnew).reshape [M * L, N * K])
            ((Kuu default_jitter).reshape [M * L, M * L])
            (if fc then (kcall Xnew fc fc).reshape [N * K, N * K]
              else (kcall Xnew fc fc).reshape [N * K]) f fc q w).2.data
            [0, n * K + k, n2 * K + k2]) := by
  have hM1 : (Kuf Xnew).shape[0]?.getD 0 = M := by rw [hKmn]; rfl
  have hL1 : (Kuf Xnew).shape[1]?.getD 0 = L := by rw [hKmn]; rfl
  have hN1 : (Kuf Xnew).shape[2]?.getD 0 = N := by rw [hKmn]; rfl
  have hK1 : (Kuf Xnew).shape[3]?.getD 0 = K := by rw [hKmn]; rfl
  have hM0 : (Kuf Xnew).shape.getD 0 0 = M := by rw [hKmn]; rfl
  have hL0 : (Kuf Xnew).shape.getD 1 0 = L := by rw [hKmn]; rfl
  have hN0 : (Kuf Xnew).shape.getD 2 0 = N := by rw [hKmn]; rfl
  have hK0 : (Kuf Xnew).shape.getD 3 0 = K := by rw [hKmn]; rfl
  have harithB : (m * L + l) * (N * K) + (n * K + k)
      = ((m * L + l) * N + n) * K + k := by ring
  have harithC : (m * L + l) * (M * L) + (m2 * L + l2)
      = ((m * L + l) * M + m2) * L + l2 := by ring
  have harithH : ((n * K + k) * N + n2) * K + k2
      = (n * K + k) * (N * K) + (n2 * K + k2) := by ring
  have hB : ((Kuf Xnew).reshape [M * L, N * K]).data [m * L + l, n * K + k]
      = (Kuf Xnew).data [m, l, n, k] := by
    rw [Tensor.reshape_data, flatIndex_two, hKmn, harithB, unflatten_four hl hn hk]
  have hC : ((Kuu default_jitter).reshape [M * L, M * L]).data
      [m * L + l, m2 * L + l2] = (Kuu default_jitter).data [m, l, m2, l2] := by
    rw [Tensor.reshape_data, flatIndex_two, hKmm, harithC,
      unflatten_four hl hm2 hl2]
  cases fc with
  | false =>
    have hKnnF : (kcall Xnew false false).shape = [N, K] := by simpa using hKnn
    have hr := hbc ((Kuf Xnew).reshape [M * L, N * K])
      ((Kuu default_jitter).reshape [M * L, M * L])
      (if false then (kcall Xnew false false).reshape [N * K, N * K]
        else (kcall Xnew false false).reshape [N * K]) f false q w
      (M * L) (N * K) 1 rfl hf
    simp only [Bool.false_eq_true, if_false, ite_false] at hr
    refine ⟨?_, hB, hC, ?_, ?_, ?_, ?_, ?_, ?_⟩
    · simp [conditional_inducing_points, okD, hM1, hL1, hN1, hK1]
    · intro h
      exact absurd h (by decide)
    · intro _
      rw [Tensor.reshape_data, flatIndex_one, hKnnF, unflatten_two hk]
    · simp [conditional_inducing_points, okD, hM1, hL1, hN1, hK1]
    · simp only [conditional_inducing_points, okD, hM0, hL0, hN0, hK0,
        Bool.false_eq_true, if_false, ite_false, beq_self_eq_true, if_true,
        ite_true, okD_ok]
      rw [Tensor.reshape_data, flatIndex_two, hr.1, unflatten_pair_one]
    · intro _
      constructor
      · simp [conditional_inducing_points, okD, hM1, hL1, hN1, hK1]
      · simp only [conditional_inducing_points, okD, hM0, hL0, hN0, hK0,
          Bool.false_eq_true, if_false, ite_false, beq_self_eq_true, if_true,
          ite_true, okD_ok]
        rw [Tensor.reshape_data, flatIndex_two, hr.2, unflatten_pair_one]
    · intro h
      exact absurd h (by decide)
  | true =>
    have hKnnT : (kcall Xnew true true).shape = [N, K, N, K] := by
      simpa using hKnn
    have hr := hbc ((Kuf Xnew).reshape [M * L, N * K])
      ((Kuu default_jitter).reshape [M * L, M * L])
      (if true then (kcall Xnew true true).reshape [N * K, N * K]
        else (kcall Xnew true true).reshape [N * K]) f true q w
      (M * L) (N * K) 1 rfl hf
    simp only [if_true, ite_true] at hr
    refine ⟨?_, hB, hC, ?_, ?_, ?_, ?_, ?_, ?_⟩
    · simp [conditional_inducing_points, okD, hM1, hL1, hN1, hK1]
    · intro _
      rw [Tensor.reshape_data, flatIndex_two, hKnnT, ← harithH,
        unflatten_four hk hn2 hk2]
    · intro h
      exact absurd h (by decide)
    · simp [conditional_inducing_points, okD, hM1, hL1, hN1, hK1]
    · simp only [conditional_inducing_points, okD, hM0, hL0, hN0, hK0,
        beq_self_eq_true, if_true, ite_true, okD_ok]
      rw [Tensor.reshape_data, flatIndex_two, hr.1, unflatten_pair_one]
    · intro h
      exact absurd h (by decide)
    · intro _
      constructor
      · simp [conditional_inducing_points, okD, hM1, hL1, hN1, hK1]
      · simp only [conditional_inducing_points, okD, hM0, hL0, hN0, hK0,
          beq_self_eq_true, if_true, ite_true, okD_ok]
        rw [Tensor.reshape_data, flatIndex_four, hr.2, harithH,
          unflatten_one_sq (flat2_lt hn hk) (flat2_lt hn2 hk2)]

/-- Witness for C2 at a concrete input. -/
theorem c2_equal_flags_flatten_and_single_call_witness :
    (okD (conditional_inducing_points bcStub (jointStub 1 2)
      (fun _ => tconst [1, 1, 1, 1] 2) (fun _ => tconst [1, 1, 1, 1] 3)
      (fun _ _ _ => tconst [1, 1] 5) Tensor.zero (tconst [1, 1] 7)
      false false none false)).2
      = [.kuu default_jitter, .kuf,
         .baseConditional [1 * 1, 1 * 1] [1 * 1, 1 * 1]
           (if false then [1 * 1, 1 * 1] else [1 * 1]) false
           (none : Option Tensor).isNone] ∧
    (((fun (_ : Tensor) => tconst [1, 1, 1, 1] 3) Tensor.zero).reshape
      [1 * 1, 1 * 1]).data [0 * 1 + 0, 0 * 1 + 0]
      = ((fun (_ : Tensor) => tconst [1, 1, 1, 1] 3) Tensor.zero).data
          [0, 0, 0, 0] ∧
    (((fun (_ : ℚ) => tconst [1, 1, 1, 1] 2) default_jitter).reshape
      [1 * 1, 1 * 1]).data [0 * 1 + 0, 0 * 1 + 0]
      = ((fun (_ : ℚ) => tconst [1, 1, 1, 1] 2) default_jitter).data
          [0, 0, 0, 0] ∧
    (false = true →
      (((fun (_ : Tensor) (_ _ : Bool) => tconst [1, 1] 5) Tensor.zero false
        false).reshape [1 * 1, 1 * 1]).data [0 * 1 + 0, 0 * 1 + 0]
        = ((fun (_ : Tensor) (_ _ : Bool) => tconst [1, 1] 5) Tensor.zero false
            false).data [0, 0, 0, 0]) ∧
    (false = false →
      (((fun (_ : Tensor) (_ _ : Bool) => tconst [1, 1] 5) Tensor.zero false
        false).reshape [1 * 1]).data [0 * 1 + 0]
        = ((fun (_ : Tensor) (_ _ : Bool) => tconst [1, 1] 5) Tensor.zero false
            false).data [0, 0]) ∧
    (okD (conditional_inducing_points bcStub (jointStub 1 2)
      (fun _ => tconst [1, 1, 1, 1] 2) (fun _ => tconst [1, 1, 1, 1] 3)
      (fun _ _ _ => tconst [1, 1] 5) Tensor.zero (tconst [1, 1] 7)
      false false none false)).1.1.shape = [1, 1] ∧
    (okD (conditional_inducing_points bcStub (jointStub 1 2)
      (fun _ => tconst [1, 1, 1, 1] 2) (fun _ => tconst [1, 1, 1, 1] 3)
      (fun _ _ _ => tconst [1, 1] 5) Tensor.zero (tconst [1, 1] 7)
      false false none false)).1.1.data [0, 0]
      = (bcStub (((fun (_ : Tensor) => tconst [1, 1, 1, 1] 3) Tensor.zero).reshape
          [1 * 1, 1 * 1])
          (((fun (_ : ℚ) => tconst [1, 1, 1, 1] 2) default_jitter).reshape
            [1 * 1, 1 * 1])
          (if false then ((fun (_ : Tensor) (_ _ : Bool) => tconst [1, 1] 5)
              Tensor.zero false false).reshape [1 * 1, 1 * 1]
            else ((fun (_ : Tensor) (_ _ : Bool) => tconst [1, 1] 5)
              Tensor.zero false false).reshape [1 * 1]) (tconst [1, 1] 7)
          false none false).1.data [0 * 1 + 0, 0] ∧
    (false = false →
      (okD (conditional_inducing_points bcStub (jointStub 1 2)
        (fun _ => tconst [1, 1, 1, 1] 2) (fun _ => tconst [1, 1, 1, 1] 3)
        (fun _ _ _ => tconst [1, 1] 5) Tensor.zero (tconst [1, 1] 7)
        false false none false)).1.2.shape = [1, 1] ∧
      (okD (conditional_inducing_points bcStub (jointStub 1 2)
        (fun _ => tconst [1, 1, 1, 1] 2) (fun _ => tconst [1, 1, 1, 1] 3)
        (fun _ _ _ => tconst [1, 1] 5) Tensor.zero (tconst [1, 1] 7)
        false false none false)).1.2.data [0, 0]
        = (bcStub (((fun (_ : Tensor) => tconst [1, 1, 1, 1] 3) Tensor.zero).reshape
            [1 * 1, 1 * 1])
            (((fun (_ : ℚ) => tconst [1, 1, 1, 1] 2) default_jitter).reshape
              [1 * 1, 1 * 1])
            (if false then ((fun (_ : Tensor) (_ _ : Bool) => tconst [1, 1] 5)
                Tensor.zero false false).reshape [1 * 1, 1 * 1]
              else ((fun (_ : Tensor) (_ _ : Bool) => tconst [1, 1] 5)
                Tensor.zero false false).reshape [1 * 1]) (tconst [1, 1] 7)
            false none false).2.data [0 * 1 + 0, 0]) ∧
    (false = true →
      (okD (conditional_inducing_points bcStub (jointStub 1 2)
        (fun _ => tconst [1, 1, 1, 1] 2) (fun _ => tconst [1, 1, 1, 1] 3)
        (fun _ _ _ => tconst [1, 1] 5) Tensor.zero (tconst [1, 1] 7)
        false false none false)).1.2.shape = [1, 1, 1, 1] ∧
      (okD (conditional_inducing_points bcStub (jointStub 1 2)
        (fun _ => tconst [1, 1, 1, 1] 2) (fun _ => tconst [1, 1, 1, 1] 3)
        (fun _ _ _ => tconst [1, 1] 5) Tensor.zero (tconst [1, 1] 7)
        false false none false)).1.2.data [0, 0, 0, 0]
        = (bcStub (((fun (_ : Tensor) => tconst [1, 1, 1, 1] 3) Tensor.zero).reshape
            [1 * 1, 1 * 1])
            (((fun (_ : ℚ) => tconst [1, 1, 1, 1] 2) default_jitter).reshape
              [1 * 1, 1 * 1])
            (if false then ((fun (_ : Tensor) (_ _ : Bool) => tconst [1, 1] 5)
                Tensor.zero false false).reshape [1 * 1, 1 * 1]
              else ((fun (_ : Tensor) (_ _ : Bool) => tconst [1, 1] 5)
                Tensor.zero false false).reshape [1 * 1]) (tconst [1, 1] 7)
            false none false).2.data [0, 0 * 1 + 0, 0 * 1 + 0]) :=
  c2_equal_flags_flatten_and_single_call bcStub (jointStub 1 2)
    (fun _ => tconst [1, 1, 1, 1] 2) (fun _ => tconst [1, 1, 1, 1] 3)
    (fun _ _ _ => tconst [1, 1] 5) Tensor.zero (tconst [1, 1] 7) false false
    none 1 1 1 1 0 0 0 0 0 0 0 0 bcStub_contract rfl rfl rfl rfl
    (by decide) (by decide) (by decide) (by decide) (by decide) (by decide)
    (by decide)

/-- Claim C4: for every regime and every combination of the two flags, the
returned variance has exactly the canonical shape `[N, P]`, `[P, N, N]`,
`[N, P, P]` or `[N, P, N, P]`, given the documented shapes of the
collaborators' outputs and the helpers' shape contracts. -/
theorem c4_variance_shape_contract
    (bc : BaseCondFn) (iic fcc : JointCondFn)
    (Kuu3 Kuu4 Kuu5 Kuu6 Kuu7 : ℚ → Tensor)
    (Kuf3 Kuf4 Kuf5 Kuf6 Kuf7 : Tensor → Tensor)
    (kcall3 kcall5 kcall6 : Tensor → Bool → Bool → Tensor)
    (kernel4 : MoKernel) (nF4 : Nat) (ks7 : List SingleKernel) (W7 : Tensor)
    (nF7 : Nat) (Xnew f3 f4 f5 f6 f7 qs4 qs7 : Tensor) (q : Option Tensor)
    (fc foc w : Bool)
    (M3 N3 P3 P4 M4 N4 M5 L5 N5 P5 M6 L6 N6 K6 P7 L7 M7 N7 : Nat)
    (hbc : BaseCondShapeContract bc)
    (hiic : JointCondShapeContract iic N5 P5 2 3)
    (hfcc : JointCondShapeContract fcc N6 K6 1 2)
    (h3Kmn : (Kuf3 Xnew).shape = [M3, N3]) (h3f : f3.shape = [M3, P3])
    (h4P : 0 < P4) (h4Kmms : (Kuu4 default_jitter).shape = [P4, M4, M4])
    (h4Kmns : (Kuf4 Xnew).shape = [P4, M4, N4]) (h4f : f4.shape = [M4, P4])
    (h5Kmn : (Kuf5 Xnew).shape = [M5, L5, N5, P5])
    (h6Kmn : (Kuf6 Xnew).shape = [M6, L6, N6, K6])
    (h7L : 0 < L7) (h7Kmms : (Kuu7 default_jitter).shape = [L7, M7, M7])
    (h7Kmns : (Kuf7 Xnew).shape = [L7, M7, N7]) (h7f : f7.shape = [M7, L7])
    (h7W : W7.shape = [P7, L7]) :
    (okD (conditional_shared_shared bc Kuu3 Kuf3 kcall3 Xnew f3 fc foc
      q w)).1.2.shape = varianceShape N3 P3 fc foc ∧
    (okD (conditional_separate_independent bc Kuu4 Kuf4 kernel4 nF4 Xnew f4
      fc foc (some qs4) w)).1.2.shape = varianceShape N4 P4 fc foc ∧
    (okD (conditional_interdomain iic Kuu5 Kuf5 kcall5 Xnew f5 fc foc
      q w)).1.2.shape = varianceShape N5 P5 fc foc ∧
    (okD (conditional_inducing_points bc fcc Kuu6 Kuf6 kcall6 Xnew f6 fc foc
      q w)).1.2.shape = varianceShape N6 K6 fc foc ∧
    (okD (conditional_mixed_kernel bc Kuu7 Kuf7 (.separateMixedMok ks7 W7) nF7
      Xnew f7 fc foc (some qs7) w)).1.2.shape = varianceShape N7 P7 fc foc :=
  ⟨(shape_shared_shared bc Kuu3 Kuf3 kcall3 Xnew f3 fc foc w q M3 N3 P3 hbc
      h3Kmn h3f).2,
   (shape_separate_independent bc Kuu4 Kuf4 kernel4 nF4 Xnew f4 qs4 fc foc w
      P4 M4 N4 hbc h4P h4Kmms h4Kmns h4f).2,
   (shape_interdomain iic Kuu5 Kuf5 kcall5 Xnew f5 fc foc w q M5 L5 N5 P5 hiic
      h5Kmn).2,
   (shape_inducing_points bc fcc Kuu6 Kuf6 kcall6 Xnew f6 fc foc w q M6 L6 N6
      K6 hfcc h6Kmn).2,
   (shape_mixed bc Kuu7 Kuf7 ks7 W7 nF7 Xnew f7 qs7 fc foc w P7 L7 M7 N7 hbc
      h7L h7Kmms h7Kmns h7f h7W).2⟩

/-- Witness for C4 at a concrete input. -/
theorem c4_variance_shape_contract_witness :
    (okD (conditional_shared_shared bcStub (fun _ => tconst [1, 1] 1)
      (fun _ => tconst [1, 1] 1) (fun _ _ _ => tconst [1, 1, 1] 1)
      Tensor.zero (tconst [1, 1] 1) true true none false)).1.2.shape
      = varianceShape 1 1 true true ∧
    (okD (conditional_separate_independent bcStub (fun _ => tconst [1, 1, 1] 1)
      (fun _ => tconst [1, 1, 1] 1) (.sharedIndependentMok SingleKernel.zero) 1
      Tensor.zero (tconst [1, 1] 1) true true (some (tconst [1, 1] 1))
      false)).1.2.shape = varianceShape 1 1 true true ∧
    (okD (conditional_interdomain (jointStub 2 3) (fun _ => tconst [1, 1, 1] 1)
      (fun _ => tconst [1, 1, 1, 1] 1) (fun _ _ _ => tconst [1, 1] 1)
      Tensor.zero (tconst [1, 1] 1) true true none false)).1.2.shape
      = varianceShape 1 1 true true ∧
    (okD (conditional_inducing_points bcStub (jointStub 1 2)
      (fun _ => tconst [1, 1, 1, 1] 1) (fun _ => tconst [1, 1, 1, 1] 1)
      (fun _ _ _ => tconst [1, 1] 1) Tensor.zero (tconst [1, 1] 1)
      true true none false)).1.2.shape = varianceShape 1 1 true true ∧
    (okD (conditional_mixed_kernel bcStub (fun _ => tconst [1, 1, 1] 1)
      (fun _ => tconst [1, 1, 1] 1)
      (.separateMixedMok [SingleKernel.zero] (tconst [1, 1] 1)) 1
      Tensor.zero (tconst [1, 1] 1) true true (some (tconst [1, 1] 1))
      false)).1.2.shape = varianceShape 1 1 true true :=
  c4_variance_shape_contract bcStub (jointStub 2 3) (jointStub 1 2)
    (fun _ => tconst [1, 1] 1) (fun _ => tconst [1, 1, 1] 1)
    (fun _ => tconst [1, 1, 1] 1) (fun _ => tconst [1, 1, 1, 1] 1)
    (fun _ => tconst [1, 1, 1] 1)
    (fun _ => tconst [1, 1] 1) (fun _ => tconst [1, 1, 1] 1)
    (fun _ => tconst [1, 1, 1, 1] 1) (fun _ => tconst [1, 1, 1, 1] 1)
    (fun _ => tconst [1, 1, 1] 1)
    (fun _ _ _ => tconst [1, 1, 1] 1) (fun _ _ _ => tconst [1, 1] 1)
    (fun _ _ _ => tconst [1, 1] 1)
    (.sharedIndependentMok SingleKernel.zero) 1 [SingleKernel.zero]
    (tconst [1, 1] 1) 1 Tensor.zero (tconst [1, 1] 1) (tconst [1, 1] 1)
    (tconst [1, 1] 1) (tconst [1, 1] 1) (tconst [1, 1] 1) (tconst [1, 1] 1)
    (tconst [1, 1] 1) none true true false
    1 1 1 1 1 1 1 1 1 1 1 1 1 1 1 1 1 1
    bcStub_contract (jointStub_contract 1 1 2 3) (jointStub_contract 1 1 1 2)
    rfl rfl (by decide) rfl rfl rfl rfl rfl (by decide) rfl rfl rfl rfl

end GPflow
